import Mathlib

/-
  Verification development for the OpenThread DUA (Domain Unicast Address)
  manager (src/core/thread/dua_manager.hpp).

  The repository provides the class declaration `DuaManager` with its data
  model (state enum, bit-packed delay union, child masks, in-flight child
  index, persistence hooks).  The member-function bodies live in a separate
  translation unit that is not part of this snapshot, so the handlers below
  are modelled from the specification; each such definition carries a doc
  comment starting with `Modelled from the spec:`.  Data-model shapes,
  field names and constants are taken from the header itself.
-/

namespace Dua

/-- Number of child-table slots addressed by the `ChildMask` bit-vectors. -/
def kMaxChildren : Nat := 10

/-- Source constant (dua_manager.hpp line 163): delay in seconds waiting for
link establishment with a new router before re-registering. -/
def kNewRouterRegistrationDelay : Nat := 5

/-- Modelled from the spec: retry delay (seconds) armed after a failed or
duplicate self registration; the spec leaves its exact value configurable. -/
def kRegistrationRetryDelay : Nat := 60

/-- Modelled from the spec: check delay (seconds) armed when the proxy
scheduler acquires work. -/
def kCheckDelayArm : Nat := 1

/-- Modulus of a uint8 field. -/
def kUint8Mod : Nat := 256

/-- Modulus of a uint16 field. -/
def kUint16Mod : Nat := 65536

/-- Modulus of a 64-bit interface identifier. -/
def kUint64Mod : Nat := 18446744073709551616

/-- The self-DUA state enum from dua_manager.hpp lines 221-227. -/
inductive DuaState
  | kNotExist
  | kToRegister
  | kRegistering
  | kRegistered
deriving DecidableEq, Repr

/-- The subset of otError values used by SetFixedDuaInterfaceIdentifier. -/
inductive OtError
  | kErrorNone
  | kErrorInvalidArgs
deriving DecidableEq, Repr

/-- A registration exchange owned by one of the two flows; the proxy flow
carries the child slot index being registered. -/
inductive Flow
  | selfFlow
  | proxyFlow (childIndex : Nat)
deriving DecidableEq, Repr

/-- Disposition of a DUA.rsp as seen by HandleDuaResponse. -/
inductive RspStatus
  | success
  | duplicate
  | failure
deriving DecidableEq, Repr

/-- Per-child DUA events fed to UpdateChildDomainUnicastAddress. -/
inductive ChildDuaEvent
  | added
  | removed
  | changed
deriving DecidableEq, Repr

/-- The three packed countdown fields of the `mDelay` union
(dua_manager.hpp lines 236-247): a uint16 and two uint8 bytes. -/
structure DelayFields where
  mReregistrationDelay : Nat
  mCheckDelay : Nat
  mRegistrationDelay : Nat
deriving DecidableEq, Repr

/-- The aggregate union read `mDelay.mValue`: little-endian packing of the
uint16 at byte offset 0, mCheckDelay at offset 2, mRegistrationDelay at
offset 3 (dua_manager.hpp line 246: nonzero indicates timer should start). -/
def DelayFields.mValue (d : DelayFields) : Nat :=
  d.mReregistrationDelay + 65536 * d.mCheckDelay + 16777216 * d.mRegistrationDelay

/-- The DuaManager state.  Fields prefixed `m` mirror the members declared in
dua_manager.hpp; the remaining fields model collaborator-visible context the
spec makes the handlers depend on (domain prefix snapshot, primary backbone
router snapshot, the transport's outstanding-request multiset, the persistence
store contents, device entropy seed, and a service log used to observe the
proxy scheduler's round-robin order). -/
structure ManagerState where
  mDuaState : DuaState
  mDadCounter : Nat
  mFixedDuaInterfaceIdentifier : Nat
  mDomainUnicastAddress : Nat
  mAddressAdded : Bool
  mDomainPrefixVal : Option Nat
  mHasPrimaryBbr : Bool
  mBbrReregDelay : Nat
  mDelay : DelayFields
  mTimerScheduled : Bool
  mIsDuaPending : Bool
  mOutstanding : List Flow
  mChildDuaMask : Nat
  mChildDuaRegisteredMask : Nat
  mChildIndexDuaRegistering : Option Nat
  mRegisterCurrentChildIndex : Bool
  mLastServicedIndex : Nat
  mServiceLog : List Nat
  mSettings : Option (Nat × Nat)
  mSeed : Nat
deriving DecidableEq, Repr

/-- Modelled from the spec: the deterministic identifier generator of
GenerateDomainUnicastAddressIid — a value seeded by device-specific entropy
and perturbed by the DAD counter, deterministic given seed and counter. -/
def GenerateDomainUnicastAddressIid (seed dadCounter : Nat) : Nat :=
  (seed + dadCounter) % kUint64Mod

/-- The inline getter of dua_manager.hpp line 112: returns the stored address
unconditionally, with no error path and no dependence on the DuaState. -/
def GetDomainUnicastAddress (s : ManagerState) : Nat :=
  s.mDomainUnicastAddress

/-- Modelled from the spec: ScheduleTimer keeps the shared timer scheduled
exactly when the aggregate delay word is nonzero (hpp line 246). -/
def ScheduleTimer (s : ManagerState) : ManagerState :=
  { s with mTimerScheduled := s.mDelay.mValue != 0 }

/-- Modelled from the spec: UpdateRegistrationDelay writes the uint8
registration-delay byte and re-evaluates the timer-arm invariant. -/
def UpdateRegistrationDelay (s : ManagerState) (aDelay : Nat) : ManagerState :=
  ScheduleTimer { s with mDelay := { s.mDelay with mRegistrationDelay := aDelay % kUint8Mod } }

/-- Modelled from the spec: UpdateCheckDelay writes the uint8 check-delay byte
and re-evaluates the timer-arm invariant. -/
def UpdateCheckDelay (s : ManagerState) (aDelay : Nat) : ManagerState :=
  ScheduleTimer { s with mDelay := { s.mDelay with mCheckDelay := aDelay % kUint8Mod } }

/-- Modelled from the spec: UpdateReregistrationDelay arms the uint16
re-registration cadence from the primary BBR configuration and re-evaluates
the timer-arm invariant. -/
def UpdateReregistrationDelay (s : ManagerState) : ManagerState :=
  ScheduleTimer { s with mDelay := { s.mDelay with mReregistrationDelay := s.mBbrReregDelay % kUint16Mod } }

/-- Modelled from the spec: Store persists the interface identifier (64-bit)
and DadCounter (one byte) through the Persistence Adapter. -/
def Store (s : ManagerState) : ManagerState :=
  { s with mSettings := some (s.mDomainUnicastAddress % kUint64Mod, s.mDadCounter % kUint8Mod) }

/-- Modelled from the spec: Restore reloads identifier and DadCounter from the
persistence store; absence of a stored value is not an error. -/
def Restore (s : ManagerState) : ManagerState :=
  match s.mSettings with
  | none => s
  | some (iid, counter) =>
      { s with mDomainUnicastAddress := iid, mDadCounter := counter }

/-- Modelled from the spec: the reserved interface identifiers rejected by
SetFixedDuaInterfaceIdentifier — the unspecified (all-zero) identifier and
the anycast-locator range 0000:00ff:fe00:xxxx. -/
def IsReservedIid (aIid : Nat) : Bool :=
  (aIid % kUint64Mod == 0) || ((aIid % kUint64Mod) >>> 16 == 0xfffe00)

/-- SetFixedDuaInterfaceIdentifier (hpp lines 114-123): OT_ERROR_INVALID_ARGS
when the identifier is reserved, OT_ERROR_NONE otherwise.  Modelled from the
spec: rejection is synchronous and leaves all state unchanged. -/
def SetFixedDuaInterfaceIdentifier (s : ManagerState) (aIid : Nat) : OtError × ManagerState :=
  if IsReservedIid aIid then
    (OtError.kErrorInvalidArgs, s)
  else
    (OtError.kErrorNone, { s with mFixedDuaInterfaceIdentifier := aIid % kUint64Mod })

/-- Number of requests of a given flow in the transport's outstanding list. -/
def countFlow (f : Flow) : List Flow → Nat
  | [] => 0
  | a :: t => (if a = f then 1 else 0) + countFlow f t

/-- Retire a flow's requests from the transport's outstanding list. -/
def removeFlow (f : Flow) (l : List Flow) : List Flow :=
  l.filter (fun g => decide (g ≠ f))

/-- Set bit `i` of a child mask. -/
def setBit (m i : Nat) : Nat := m ||| (1 <<< i)

/-- Clear bit `i` of a child mask. -/
def clearBit (m i : Nat) : Nat := if m.testBit i then m - (1 <<< i) else m

/-- Modelled from the spec: the self-flow half of PerformNextRegistration —
when the DUA is to-register, a domain prefix and a primary BBR exist and no
self request is pending, generate the candidate identifier (the fixed
override when configured) and submit one registration request. -/
def trySelfRegistration (s : ManagerState) : ManagerState :=
  if s.mDuaState = DuaState.kToRegister ∧ s.mDomainPrefixVal.isSome ∧
      s.mHasPrimaryBbr = true ∧ s.mIsDuaPending = false then
    let iid := if s.mFixedDuaInterfaceIdentifier ≠ 0 then s.mFixedDuaInterfaceIdentifier
               else GenerateDomainUnicastAddressIid s.mSeed s.mDadCounter
    { s with mDomainUnicastAddress := iid
           , mDuaState := DuaState.kRegistering
           , mIsDuaPending := true
           , mOutstanding := Flow.selfFlow :: s.mOutstanding }
  else s

/-- Modelled from the spec: the round-robin scan of the Pending mask, in slot
order starting at `start`, wrapping over the child-table capacity. -/
def findPendingChild (mask start : Nat) : Option Nat :=
  ((List.range kMaxChildren).map (fun k => (start + k) % kMaxChildren)).find?
    (fun i => mask.testBit i)

/-- Modelled from the spec: the proxy-flow half of PerformNextRegistration —
with no child in flight, scan the Pending mask starting just after the
last-serviced slot and submit one registration for the first pending child. -/
def tryProxyRegistration (s : ManagerState) : ManagerState :=
  if s.mChildIndexDuaRegistering = none then
    match findPendingChild s.mChildDuaMask ((s.mLastServicedIndex + 1) % kMaxChildren) with
    | some i =>
        { s with mChildIndexDuaRegistering := some i
               , mOutstanding := Flow.proxyFlow i :: s.mOutstanding
               , mServiceLog := s.mServiceLog ++ [i] }
    | none => s
  else s

/-- Modelled from the spec: PerformNextRegistration serves the self flow and
then the proxy flow, each limited to one outstanding request. -/
def PerformNextRegistration (s : ManagerState) : ManagerState :=
  tryProxyRegistration (trySelfRegistration s)

/-- Modelled from the spec: HandleDuaResponse for the self flow.  A response
arriving when no self request is outstanding is ignored.  Success reaches
kRegistered, adds the address to the interface, persists identifier and
counter and arms the re-registration cadence; a duplicate-address response
increments DadCounter, regenerates the identifier and retries after
RegistrationDelay; any other failure retries after RegistrationDelay. -/
def HandleDuaResponse (s : ManagerState) (aResult : RspStatus) : ManagerState :=
  if s.mIsDuaPending = false then s
  else
    let s1 := { s with mIsDuaPending := false
                     , mOutstanding := removeFlow Flow.selfFlow s.mOutstanding }
    match aResult with
    | RspStatus.success =>
        UpdateReregistrationDelay
          (Store { s1 with mDuaState := DuaState.kRegistered, mAddressAdded := true })
    | RspStatus.duplicate =>
        let counter := (s1.mDadCounter + 1) % kUint8Mod
        UpdateRegistrationDelay
          { s1 with mDuaState := DuaState.kToRegister
                  , mDadCounter := counter
                  , mDomainUnicastAddress :=
                      if s1.mFixedDuaInterfaceIdentifier ≠ 0 then s1.mFixedDuaInterfaceIdentifier
                      else GenerateDomainUnicastAddressIid s1.mSeed counter }
          kRegistrationRetryDelay
    | RspStatus.failure =>
        UpdateRegistrationDelay { s1 with mDuaState := DuaState.kToRegister }
          kRegistrationRetryDelay

/-- Modelled from the spec: the proxy-flow half of HandleDuaResponse.  A
response with no child in flight is ignored.  Success moves the child's bit
from Pending to Registered and clears the in-flight index (restarting at the
same slot when RegisterCurrentChildIndex was set); failure clears the
in-flight index, leaves the bit Pending and throttles via CheckDelay. -/
def HandleProxyDuaResponse (s : ManagerState) (aResult : RspStatus) : ManagerState :=
  match s.mChildIndexDuaRegistering with
  | none => s
  | some i =>
      let s1 := { s with mChildIndexDuaRegistering := none
                       , mOutstanding := removeFlow (Flow.proxyFlow i) s.mOutstanding }
      match aResult with
      | RspStatus.success =>
          if s1.mRegisterCurrentChildIndex then
            { s1 with mRegisterCurrentChildIndex := false
                    , mChildDuaRegisteredMask := setBit s1.mChildDuaRegisteredMask i
                    , mLastServicedIndex := (i + kMaxChildren - 1) % kMaxChildren }
          else
            { s1 with mChildDuaMask := clearBit s1.mChildDuaMask i
                    , mChildDuaRegisteredMask := setBit s1.mChildDuaRegisteredMask i
                    , mLastServicedIndex := i }
      | _ =>
          UpdateCheckDelay { s1 with mLastServicedIndex := i } kCheckDelayArm

/-- Modelled from the spec: UpdateChildDomainUnicastAddress — a child gaining
a DUA sets its Pending bit and arms CheckDelay; a change while its
registration is in flight requests an immediate re-submit; a removed child
has both bits cleared and any in-flight interest cancelled. -/
def UpdateChildDomainUnicastAddress (s : ManagerState) (aChildIndex : Nat)
    (aState : ChildDuaEvent) : ManagerState :=
  if aChildIndex < kMaxChildren then
    match aState with
    | ChildDuaEvent.added =>
        UpdateCheckDelay { s with mChildDuaMask := setBit s.mChildDuaMask aChildIndex }
          kCheckDelayArm
    | ChildDuaEvent.changed =>
        if s.mChildIndexDuaRegistering = some aChildIndex then
          { s with mRegisterCurrentChildIndex := true }
        else
          UpdateCheckDelay { s with mChildDuaMask := setBit s.mChildDuaMask aChildIndex }
            kCheckDelayArm
    | ChildDuaEvent.removed =>
        let s1 := { s with mChildDuaMask := clearBit s.mChildDuaMask aChildIndex
                         , mChildDuaRegisteredMask := clearBit s.mChildDuaRegisteredMask aChildIndex }
        if s1.mChildIndexDuaRegistering = some aChildIndex then
          { s1 with mChildIndexDuaRegistering := none
                  , mOutstanding := removeFlow (Flow.proxyFlow aChildIndex) s1.mOutstanding }
        else s1
  else s

/-- Modelled from the spec: HandleDomainPrefixUpdate.  Withdrawal moves the
machine to kNotExist, removes the address from the interface, cancels the
self flow's interest in any in-flight response and leaves the persisted
state intact; a new or refreshed prefix re-arms the machine to kToRegister. -/
def HandleDomainPrefixUpdate (s : ManagerState) (aNewDomainPfx : Option Nat) : ManagerState :=
  match aNewDomainPfx with
  | none =>
      { s with mDuaState := DuaState.kNotExist
             , mAddressAdded := false
             , mDomainPrefixVal := none
             , mIsDuaPending := false
             , mOutstanding := removeFlow Flow.selfFlow s.mOutstanding }
  | some p =>
      { s with mDomainPrefixVal := some p
             , mDuaState := DuaState.kToRegister
             , mAddressAdded := false }

/-- Modelled from the spec: HandleBackboneRouterPrimaryUpdate — record the
primary snapshot and its re-registration cadence; a new primary elected while
the DUA is registered resets to kToRegister and arms the short
kNewRouterRegistrationDelay instead of waiting for the full cadence. -/
def HandleBackboneRouterPrimaryUpdate (s : ManagerState) (aHasPrimary : Bool)
    (aReregDelay : Nat) : ManagerState :=
  let s1 := { s with mHasPrimaryBbr := aHasPrimary, mBbrReregDelay := aReregDelay % kUint16Mod }
  if aHasPrimary = true ∧ s1.mDuaState = DuaState.kRegistered then
    UpdateRegistrationDelay { s1 with mDuaState := DuaState.kToRegister }
      kNewRouterRegistrationDelay
  else s1

/-- Modelled from the spec: an unsolicited DUA notification forces a
registered DUA back to kToRegister and re-registers immediately, bypassing
the normal delay. -/
def HandleDuaNotification (s : ManagerState) : ManagerState :=
  if s.mDuaState = DuaState.kRegistered then
    trySelfRegistration { s with mDuaState := DuaState.kToRegister }
  else s

/-- Modelled from the spec: the shared timer callback — decrement every
nonzero countdown by one tick (clamped at zero), run the action of each field
that reached zero exactly once, then reschedule the timer exactly when the
aggregate delay word is still nonzero. -/
def HandleTimer (s : ManagerState) : ManagerState :=
  let d := s.mDelay
  let s1 := { s with mDelay := ⟨d.mReregistrationDelay - 1, d.mCheckDelay - 1,
                                d.mRegistrationDelay - 1⟩ }
  let s2 := if d.mReregistrationDelay = 1 ∧ s1.mDuaState = DuaState.kRegistered then
              { s1 with mDuaState := DuaState.kToRegister }
            else s1
  let s3 := if d.mRegistrationDelay = 1 ∨ d.mReregistrationDelay = 1 then
              trySelfRegistration s2
            else s2
  let s4 := if d.mCheckDelay = 1 then tryProxyRegistration s3 else s3
  ScheduleTimer s4

/-- The event alphabet driving the DuaManager: the three timing sources of
the spec (timer tick, topology events, protocol responses) plus the public
mutators of the header. -/
inductive Event
  | timerFire
  | domainPrefixUpdate (aNewDomainPfx : Option Nat)
  | backboneRouterPrimaryUpdate (aHasPrimary : Bool) (aReregDelay : Nat)
  | registrationTask
  | duaRsp (aResult : RspStatus)
  | proxyDuaRsp (aResult : RspStatus)
  | childDuaUpdate (aChildIndex : Nat) (aState : ChildDuaEvent)
  | setFixedIid (aIid : Nat)
  | clearFixedIid
  | restoreSettings
  | duaNtf
deriving DecidableEq, Repr

/-- One dispatch of the single-threaded cooperative loop. -/
def step (s : ManagerState) : Event → ManagerState
  | Event.timerFire => HandleTimer s
  | Event.domainPrefixUpdate p => HandleDomainPrefixUpdate s p
  | Event.backboneRouterPrimaryUpdate b d => HandleBackboneRouterPrimaryUpdate s b d
  | Event.registrationTask => PerformNextRegistration s
  | Event.duaRsp r => HandleDuaResponse s r
  | Event.proxyDuaRsp r => HandleProxyDuaResponse s r
  | Event.childDuaUpdate i st => UpdateChildDomainUnicastAddress s i st
  | Event.setFixedIid iid => (SetFixedDuaInterfaceIdentifier s iid).2
  | Event.clearFixedIid => { s with mFixedDuaInterfaceIdentifier := 0 }
  | Event.restoreSettings => Restore s
  | Event.duaNtf => HandleDuaNotification s

/-- The freshly constructed DuaManager (constructor of dua_manager.hpp):
timer idle, all countdowns zero, no request outstanding, no child pending. -/
def initState (seed : Nat) : ManagerState where
  mDuaState := DuaState.kNotExist
  mDadCounter := 0
  mFixedDuaInterfaceIdentifier := 0
  mDomainUnicastAddress := 0
  mAddressAdded := false
  mDomainPrefixVal := none
  mHasPrimaryBbr := false
  mBbrReregDelay := 0
  mDelay := ⟨0, 0, 0⟩
  mTimerScheduled := false
  mIsDuaPending := false
  mOutstanding := []
  mChildDuaMask := 0
  mChildDuaRegisteredMask := 0
  mChildIndexDuaRegistering := none
  mRegisterCurrentChildIndex := false
  mLastServicedIndex := kMaxChildren - 1
  mServiceLog := []
  mSettings := none
  mSeed := seed

/-- States reachable from a freshly constructed manager by any event
sequence. -/
inductive Reachable : ManagerState → Prop
  | init (seed : Nat) : Reachable (initState seed)
  | next {s : ManagerState} (e : Event) : Reachable s → Reachable (step s e)

/-- Run a list of events. -/
def run (s : ManagerState) (es : List Event) : ManagerState :=
  es.foldl step s

/-- The timer-arm invariant: the shared timer is scheduled exactly when the
aggregate packed delay word is nonzero. -/
def TimerInv (s : ManagerState) : Prop :=
  s.mTimerScheduled = (s.mDelay.mValue != 0)

/-- The outstanding-request invariant: the transport holds exactly one
self-flow request when mIsDuaPending is set and none otherwise, and exactly
one proxy-flow request, for the in-flight child, when
mChildIndexDuaRegistering holds a slot and none otherwise. -/
def OutInv (s : ManagerState) : Prop :=
  countFlow Flow.selfFlow s.mOutstanding = (if s.mIsDuaPending then 1 else 0) ∧
  ∀ i, countFlow (Flow.proxyFlow i) s.mOutstanding =
    (if s.mChildIndexDuaRegistering = some i then 1 else 0)

/-- One failed duplicate-address round: the registration tasklet submits the
self registration, then the duplicate-address response is delivered. -/
def dupCycle (s : ManagerState) : ManagerState :=
  step (step s Event.registrationTask) (Event.duaRsp RspStatus.duplicate)

/-- The conditions under which the self flow re-attempts registration with a
generated (non-fixed) identifier: state kToRegister, no request pending, a
domain prefix and a primary BBR present, no fixed identifier configured, and
the uint8 DadCounter in range. -/
def SelfRetryReady (s : ManagerState) : Prop :=
  s.mDuaState = DuaState.kToRegister ∧ s.mIsDuaPending = false ∧
  s.mDomainPrefixVal.isSome = true ∧ s.mHasPrimaryBbr = true ∧
  s.mFixedDuaInterfaceIdentifier = 0 ∧ s.mDadCounter < kUint8Mod

/-- A reachable-shaped state poised for a self registration attempt, used to
instantiate the duplicate-address theorems. -/
def readyState : ManagerState :=
  { initState 7 with mDuaState := DuaState.kToRegister
                   , mDomainPrefixVal := some 1
                   , mHasPrimaryBbr := true }

/-- Scenario C of the spec: children in slots 1, 3 and 4 request proxy DUA
registration; the scheduler serves them with all-success responses. -/
def scenarioCEvents : List Event :=
  [Event.childDuaUpdate 1 ChildDuaEvent.added,
   Event.childDuaUpdate 3 ChildDuaEvent.added,
   Event.childDuaUpdate 4 ChildDuaEvent.added,
   Event.registrationTask, Event.proxyDuaRsp RspStatus.success,
   Event.registrationTask, Event.proxyDuaRsp RspStatus.success,
   Event.registrationTask, Event.proxyDuaRsp RspStatus.success]

/-- The state at the end of scenario C. -/
def scenarioC : ManagerState := run (initState 0) scenarioCEvents

/-- A state with child 2 in flight for the proxy flow, used to instantiate
the proxy-response success theorem. -/
def proxyInFlightState : ManagerState :=
  { initState 0 with mChildDuaMask := 4
                   , mChildIndexDuaRegistering := some 2
                   , mOutstanding := [Flow.proxyFlow 2] }

theorem timerInv_frame {s t : ManagerState} (h : TimerInv s) (hd : t.mDelay = s.mDelay)
    (ht : t.mTimerScheduled = s.mTimerScheduled) : TimerInv t := by
  unfold TimerInv at *
  rw [hd, ht]
  exact h

theorem timerInv_ScheduleTimer (s : ManagerState) : TimerInv (ScheduleTimer s) := rfl

theorem timerInv_UpdateRegistrationDelay (s : ManagerState) (d : Nat) :
    TimerInv (UpdateRegistrationDelay s d) := rfl

theorem timerInv_UpdateCheckDelay (s : ManagerState) (d : Nat) :
    TimerInv (UpdateCheckDelay s d) := rfl

theorem timerInv_UpdateReregistrationDelay (s : ManagerState) :
    TimerInv (UpdateReregistrationDelay s) := rfl

theorem trySelf_frame (s : ManagerState) :
    (trySelfRegistration s).mDelay = s.mDelay ∧
    (trySelfRegistration s).mTimerScheduled = s.mTimerScheduled := by
  unfold trySelfRegistration
  split <;> exact ⟨rfl, rfl⟩

theorem tryProxy_frame (s : ManagerState) :
    (tryProxyRegistration s).mDelay = s.mDelay ∧
    (tryProxyRegistration s).mTimerScheduled = s.mTimerScheduled := by
  unfold tryProxyRegistration
  split
  · split <;> exact ⟨rfl, rfl⟩
  · exact ⟨rfl, rfl⟩

theorem timerInv_step (s : ManagerState) (e : Event) (h : TimerInv s) :
    TimerInv (step s e) := by
  cases e with
  | timerFire =>
      show TimerInv (HandleTimer s)
      unfold HandleTimer
      exact timerInv_ScheduleTimer _
  | domainPrefixUpdate p =>
      show TimerInv (HandleDomainPrefixUpdate s p)
      cases p with
      | none => apply timerInv_frame h <;> rfl
      | some q => apply timerInv_frame h <;> rfl
  | backboneRouterPrimaryUpdate b d =>
      show TimerInv (HandleBackboneRouterPrimaryUpdate s b d)
      unfold HandleBackboneRouterPrimaryUpdate
      dsimp only
      split
      · exact timerInv_UpdateRegistrationDelay _ _
      · apply timerInv_frame h <;> rfl
  | registrationTask =>
      show TimerInv (tryProxyRegistration (trySelfRegistration s))
      have h1 := trySelf_frame s
      have h2 := tryProxy_frame (trySelfRegistration s)
      exact timerInv_frame h (h2.1.trans h1.1) (h2.2.trans h1.2)
  | duaRsp r =>
      show TimerInv (HandleDuaResponse s r)
      unfold HandleDuaResponse
      dsimp only
      split
      · exact h
      · cases r with
        | success => exact timerInv_UpdateReregistrationDelay _
        | duplicate => exact timerInv_UpdateRegistrationDelay _ _
        | failure => exact timerInv_UpdateRegistrationDelay _ _
  | proxyDuaRsp r =>
      cases r with
      | success =>
          show TimerInv (HandleProxyDuaResponse s RspStatus.success)
          unfold HandleProxyDuaResponse
          dsimp only
          split
          · exact h
          · apply timerInv_frame h <;>
              (cases hb : s.mRegisterCurrentChildIndex <;> simp [hb])
      | duplicate =>
          show TimerInv (HandleProxyDuaResponse s RspStatus.duplicate)
          unfold HandleProxyDuaResponse
          dsimp only
          split
          · exact h
          · exact timerInv_UpdateCheckDelay _ _
      | failure =>
          show TimerInv (HandleProxyDuaResponse s RspStatus.failure)
          unfold HandleProxyDuaResponse
          dsimp only
          split
          · exact h
          · exact timerInv_UpdateCheckDelay _ _
  | childDuaUpdate i st =>
      cases st with
      | added =>
          show TimerInv (UpdateChildDomainUnicastAddress s i ChildDuaEvent.added)
          unfold UpdateChildDomainUnicastAddress
          dsimp only
          split
          · exact timerInv_UpdateCheckDelay _ _
          · exact h
      | changed =>
          show TimerInv (UpdateChildDomainUnicastAddress s i ChildDuaEvent.changed)
          unfold UpdateChildDomainUnicastAddress
          dsimp only
          split
          · split
            · apply timerInv_frame h <;> rfl
            · exact timerInv_UpdateCheckDelay _ _
          · exact h
      | removed =>
          show TimerInv (UpdateChildDomainUnicastAddress s i ChildDuaEvent.removed)
          unfold UpdateChildDomainUnicastAddress
          dsimp only
          split
          · split
            · apply timerInv_frame h <;> rfl
            · apply timerInv_frame h <;> rfl
          · exact h
  | setFixedIid iid =>
      show TimerInv (SetFixedDuaInterfaceIdentifier s iid).2
      unfold SetFixedDuaInterfaceIdentifier
      split
      · exact h
      · apply timerInv_frame h <;> rfl
  | clearFixedIid => apply timerInv_frame h <;> rfl
  | restoreSettings =>
      show TimerInv (Restore s)
      unfold Restore
      split
      · exact h
      · apply timerInv_frame h <;> rfl
  | duaNtf =>
      show TimerInv (HandleDuaNotification s)
      unfold HandleDuaNotification
      split
      · have hmod : TimerInv { s with mDuaState := DuaState.kToRegister } := by
          apply timerInv_frame h <;> rfl
        have h2 := trySelf_frame { s with mDuaState := DuaState.kToRegister }
        exact timerInv_frame hmod h2.1 h2.2
      · exact h

theorem timerInv_reachable {s : ManagerState} (h : Reachable s) : TimerInv s := by
  induction h with
  | init seed => rfl
  | next e _ ih => exact timerInv_step _ e ih

theorem countFlow_removeFlow (f g : Flow) (l : List Flow) :
    countFlow g (removeFlow f l) = if g = f then 0 else countFlow g l := by
  induction l with
  | nil => simp [removeFlow, countFlow]
  | cons a t ih =>
      simp only [removeFlow] at ih ⊢
      rw [List.filter_cons]
      by_cases haf : a = f
      · rw [if_neg (by simp [haf])]
        rw [ih]
        by_cases hgf : g = f
        · simp [hgf]
        · have hag : ¬(a = g) := by
            rw [haf]
            exact fun hh => hgf hh.symm
          rw [if_neg hgf, if_neg hgf]
          simp [countFlow, hag]
      · rw [if_pos (by simp [haf])]
        simp only [countFlow]
        rw [ih]
        by_cases hgf : g = f
        · have hag : ¬(a = g) := by
            rw [hgf]
            exact haf
          simp [hgf, hag, haf]
        · simp [hgf, countFlow]

theorem outInv_frame {s t : ManagerState} (h : OutInv s)
    (ho : t.mOutstanding = s.mOutstanding) (hp : t.mIsDuaPending = s.mIsDuaPending)
    (hc : t.mChildIndexDuaRegistering = s.mChildIndexDuaRegistering) : OutInv t := by
  unfold OutInv at *
  rw [ho, hp, hc]
  exact h

theorem outInv_trySelf (s : ManagerState) (h : OutInv s) :
    OutInv (trySelfRegistration s) := by
  unfold trySelfRegistration
  split
  · rename_i hc
    obtain ⟨h1, h2, h3, h4⟩ := hc
    refine ⟨?_, ?_⟩
    · show countFlow Flow.selfFlow (Flow.selfFlow :: s.mOutstanding) = 1
      have := h.1
      rw [h4] at this
      simp [countFlow, this]
    · intro i
      show countFlow (Flow.proxyFlow i) (Flow.selfFlow :: s.mOutstanding) = _
      simpa [countFlow] using h.2 i
  · exact h

theorem outInv_tryProxy (s : ManagerState) (h : OutInv s) :
    OutInv (tryProxyRegistration s) := by
  unfold tryProxyRegistration
  split
  · rename_i hnone
    cases hf : findPendingChild s.mChildDuaMask ((s.mLastServicedIndex + 1) % kMaxChildren) with
    | none => exact h
    | some j =>
        refine ⟨?_, ?_⟩
        · show countFlow Flow.selfFlow (Flow.proxyFlow j :: s.mOutstanding) = _
          simpa [countFlow] using h.1
        · intro i
          show countFlow (Flow.proxyFlow i) (Flow.proxyFlow j :: s.mOutstanding) =
            (if some j = some i then 1 else 0)
          have hi := h.2 i
          rw [hnone] at hi
          simp at hi
          by_cases hij : j = i <;> simp [countFlow, hij, hi]
  · exact h

theorem outInv_ScheduleTimer {s : ManagerState} (h : OutInv s) :
    OutInv (ScheduleTimer s) :=
  outInv_frame h rfl rfl rfl

/-- Retiring the self-flow request preserves the outstanding invariant. -/
theorem outInv_selfRetire {s t : ManagerState} (h : OutInv s)
    (ho : t.mOutstanding = removeFlow Flow.selfFlow s.mOutstanding)
    (hp : t.mIsDuaPending = false)
    (hc : t.mChildIndexDuaRegistering = s.mChildIndexDuaRegistering) : OutInv t := by
  refine ⟨?_, ?_⟩
  · rw [ho, hp, countFlow_removeFlow]
    simp
  · intro i
    rw [ho, hc, countFlow_removeFlow]
    simpa using h.2 i

/-- Retiring the in-flight proxy request preserves the outstanding
invariant. -/
theorem outInv_proxyRetire {s t : ManagerState} (i : Nat) (h : OutInv s)
    (heq : s.mChildIndexDuaRegistering = some i)
    (ho : t.mOutstanding = removeFlow (Flow.proxyFlow i) s.mOutstanding)
    (hp : t.mIsDuaPending = s.mIsDuaPending)
    (hc : t.mChildIndexDuaRegistering = none) : OutInv t := by
  refine ⟨?_, ?_⟩
  · rw [ho, hp, countFlow_removeFlow]
    simpa using h.1
  · intro j
    rw [ho, hc, countFlow_removeFlow]
    have hj := h.2 j
    rw [heq] at hj
    by_cases hij : j = i
    · simp [hij]
    · simp only [if_neg (by simp [hij] : ¬(Flow.proxyFlow j = Flow.proxyFlow i))]
      rw [hj]
      simp [Ne.symm hij, hij]

theorem outInv_step (s : ManagerState) (e : Event) (h : OutInv s) :
    OutInv (step s e) := by
  cases e with
  | timerFire =>
      show OutInv (HandleTimer s)
      unfold HandleTimer
      dsimp only
      apply outInv_ScheduleTimer
      split
      · apply outInv_tryProxy
        split
        · apply outInv_trySelf
          split
          · exact outInv_frame h rfl rfl rfl
          · exact outInv_frame h rfl rfl rfl
        · split
          · exact outInv_frame h rfl rfl rfl
          · exact outInv_frame h rfl rfl rfl
      · split
        · apply outInv_trySelf
          split
          · exact outInv_frame h rfl rfl rfl
          · exact outInv_frame h rfl rfl rfl
        · split
          · exact outInv_frame h rfl rfl rfl
          · exact outInv_frame h rfl rfl rfl
  | domainPrefixUpdate p =>
      show OutInv (HandleDomainPrefixUpdate s p)
      cases p with
      | none => exact outInv_selfRetire h rfl rfl rfl
      | some q => exact outInv_frame h rfl rfl rfl
  | backboneRouterPrimaryUpdate b d =>
      show OutInv (HandleBackboneRouterPrimaryUpdate s b d)
      unfold HandleBackboneRouterPrimaryUpdate
      dsimp only
      split
      · exact outInv_frame h rfl rfl rfl
      · exact outInv_frame h rfl rfl rfl
  | registrationTask =>
      show OutInv (tryProxyRegistration (trySelfRegistration s))
      exact outInv_tryProxy _ (outInv_trySelf _ h)
  | duaRsp r =>
      cases r with
      | success =>
          show OutInv (HandleDuaResponse s RspStatus.success)
          unfold HandleDuaResponse
          dsimp only
          split
          · exact h
          · exact outInv_selfRetire h rfl rfl rfl
      | duplicate =>
          show OutInv (HandleDuaResponse s RspStatus.duplicate)
          unfold HandleDuaResponse
          dsimp only
          split
          · exact h
          · exact outInv_selfRetire h rfl rfl rfl
      | failure =>
          show OutInv (HandleDuaResponse s RspStatus.failure)
          unfold HandleDuaResponse
          dsimp only
          split
          · exact h
          · exact outInv_selfRetire h rfl rfl rfl
  | proxyDuaRsp r =>
      cases r with
      | success =>
          show OutInv (HandleProxyDuaResponse s RspStatus.success)
          unfold HandleProxyDuaResponse
          dsimp only
          split
          · exact h
          · rename_i i heq
            split
            · exact outInv_proxyRetire i h heq rfl rfl rfl
            · exact outInv_proxyRetire i h heq rfl rfl rfl
      | duplicate =>
          show OutInv (HandleProxyDuaResponse s RspStatus.duplicate)
          unfold HandleProxyDuaResponse
          dsimp only
          split
          · exact h
          · rename_i i heq
            exact outInv_proxyRetire i h heq rfl rfl rfl
      | failure =>
          show OutInv (HandleProxyDuaResponse s RspStatus.failure)
          unfold HandleProxyDuaResponse
          dsimp only
          split
          · exact h
          · rename_i i heq
            exact outInv_proxyRetire i h heq rfl rfl rfl
  | childDuaUpdate i st =>
      cases st with
      | added =>
          show OutInv (UpdateChildDomainUnicastAddress s i ChildDuaEvent.added)
          unfold UpdateChildDomainUnicastAddress
          dsimp only
          split
          · exact outInv_frame h rfl rfl rfl
          · exact h
      | changed =>
          show OutInv (UpdateChildDomainUnicastAddress s i ChildDuaEvent.changed)
          unfold UpdateChildDomainUnicastAddress
          dsimp only
          split
          · split
            · exact outInv_frame h rfl rfl rfl
            · exact outInv_frame h rfl rfl rfl
          · exact h
      | removed =>
          show OutInv (UpdateChildDomainUnicastAddress s i ChildDuaEvent.removed)
          unfold UpdateChildDomainUnicastAddress
          dsimp only
          split
          · split
            · rename_i heq
              exact outInv_proxyRetire i h heq rfl rfl rfl
            · exact outInv_frame h rfl rfl rfl
          · exact h
  | setFixedIid iid =>
      show OutInv (SetFixedDuaInterfaceIdentifier s iid).2
      unfold SetFixedDuaInterfaceIdentifier
      split
      · exact h
      · exact outInv_frame h rfl rfl rfl
  | clearFixedIid => exact outInv_frame h rfl rfl rfl
  | restoreSettings =>
      show OutInv (Restore s)
      unfold Restore
      split
      · exact h
      · exact outInv_frame h rfl rfl rfl
  | duaNtf =>
      show OutInv (HandleDuaNotification s)
      unfold HandleDuaNotification
      split
      · exact outInv_trySelf _ (outInv_frame h rfl rfl rfl)
      · exact h

theorem outInv_reachable {s : ManagerState} (h : Reachable s) : OutInv s := by
  induction h with
  | init seed => exact ⟨rfl, fun i => rfl⟩
  | next e _ ih => exact outInv_step _ e ih

theorem countFlow_pos_of_mem {f : Flow} {l : List Flow} (h : f ∈ l) :
    1 ≤ countFlow f l := by
  induction l with
  | nil => cases h
  | cons a t ih =>
      rcases List.mem_cons.mp h with hfa | ht
      · simp [countFlow, hfa.symm]
      · have := ih ht
        simp only [countFlow]
        omega

theorem trySelf_submit (s : ManagerState) (h1 : s.mDuaState = DuaState.kToRegister)
    (h2 : s.mIsDuaPending = false) (h3 : s.mDomainPrefixVal.isSome = true)
    (h4 : s.mHasPrimaryBbr = true) (h5 : s.mFixedDuaInterfaceIdentifier = 0) :
    trySelfRegistration s =
      { s with mDomainUnicastAddress := GenerateDomainUnicastAddressIid s.mSeed s.mDadCounter
             , mDuaState := DuaState.kRegistering
             , mIsDuaPending := true
             , mOutstanding := Flow.selfFlow :: s.mOutstanding } := by
  unfold trySelfRegistration
  rw [if_pos ⟨h1, h3, h4, h2⟩]
  simp [h5]

theorem tryProxy_selfFields (s : ManagerState) :
    (tryProxyRegistration s).mDuaState = s.mDuaState ∧
    (tryProxyRegistration s).mIsDuaPending = s.mIsDuaPending ∧
    (tryProxyRegistration s).mDadCounter = s.mDadCounter ∧
    (tryProxyRegistration s).mDomainUnicastAddress = s.mDomainUnicastAddress ∧
    (tryProxyRegistration s).mSeed = s.mSeed ∧
    (tryProxyRegistration s).mDomainPrefixVal = s.mDomainPrefixVal ∧
    (tryProxyRegistration s).mHasPrimaryBbr = s.mHasPrimaryBbr ∧
    (tryProxyRegistration s).mFixedDuaInterfaceIdentifier = s.mFixedDuaInterfaceIdentifier := by
  unfold tryProxyRegistration
  split
  · split <;> exact ⟨rfl, rfl, rfl, rfl, rfl, rfl, rfl, rfl⟩
  · exact ⟨rfl, rfl, rfl, rfl, rfl, rfl, rfl, rfl⟩

theorem dupCycle_spec (s : ManagerState) (h : SelfRetryReady s) :
    SelfRetryReady (dupCycle s) ∧
    (dupCycle s).mSeed = s.mSeed ∧
    (dupCycle s).mDadCounter = (s.mDadCounter + 1) % kUint8Mod ∧
    (dupCycle s).mDomainUnicastAddress =
      GenerateDomainUnicastAddressIid s.mSeed ((s.mDadCounter + 1) % kUint8Mod) ∧
    (step s Event.registrationTask).mDomainUnicastAddress =
      GenerateDomainUnicastAddressIid s.mSeed s.mDadCounter := by
  obtain ⟨h1, h2, h3, h4, h5, h6⟩ := h
  have hts := trySelf_submit s h1 h2 h3 h4 h5
  have hpf := tryProxy_selfFields (trySelfRegistration s)
  have hstep : step s Event.registrationTask = tryProxyRegistration (trySelfRegistration s) := rfl
  have hpend : (tryProxyRegistration (trySelfRegistration s)).mIsDuaPending = true := by
    rw [hpf.2.1, hts]
  have hfix : (tryProxyRegistration (trySelfRegistration s)).mFixedDuaInterfaceIdentifier = 0 := by
    rw [hpf.2.2.2.2.2.2.2, hts]
    exact h5
  have hcnt : (tryProxyRegistration (trySelfRegistration s)).mDadCounter = s.mDadCounter := by
    rw [hpf.2.2.1, hts]
  have hseed : (tryProxyRegistration (trySelfRegistration s)).mSeed = s.mSeed := by
    rw [hpf.2.2.2.2.1, hts]
  have hpfx : (tryProxyRegistration (trySelfRegistration s)).mDomainPrefixVal = s.mDomainPrefixVal := by
    rw [hpf.2.2.2.2.2.1, hts]
  have hbbr : (tryProxyRegistration (trySelfRegistration s)).mHasPrimaryBbr = true := by
    rw [hpf.2.2.2.2.2.2.1, hts]
    exact h4
  have hdup : dupCycle s =
      HandleDuaResponse (tryProxyRegistration (trySelfRegistration s)) RspStatus.duplicate := rfl
  rw [hdup]
  unfold HandleDuaResponse
  rw [if_neg (by simp [hpend])]
  dsimp only
  refine ⟨⟨?_, ?_, ?_, ?_, ?_, ?_⟩, ?_, ?_, ?_, ?_⟩
  · rfl
  · rfl
  · show (tryProxyRegistration (trySelfRegistration s)).mDomainPrefixVal.isSome = true
    rw [hpfx]
    exact h3
  · simpa using hbbr
  · simpa using hfix
  · show ((tryProxyRegistration (trySelfRegistration s)).mDadCounter + 1) % kUint8Mod < kUint8Mod
    simp only [kUint8Mod]
    omega
  · simpa using hseed
  · show ((tryProxyRegistration (trySelfRegistration s)).mDadCounter + 1) % kUint8Mod =
      (s.mDadCounter + 1) % kUint8Mod
    rw [hcnt]
  · show (if (tryProxyRegistration (trySelfRegistration s)).mFixedDuaInterfaceIdentifier ≠ 0 then
        (tryProxyRegistration (trySelfRegistration s)).mFixedDuaInterfaceIdentifier
      else
        GenerateDomainUnicastAddressIid (tryProxyRegistration (trySelfRegistration s)).mSeed
          (((tryProxyRegistration (trySelfRegistration s)).mDadCounter + 1) % kUint8Mod)) =
      GenerateDomainUnicastAddressIid s.mSeed ((s.mDadCounter + 1) % kUint8Mod)
    rw [hfix, hseed, hcnt]
    simp
  · rw [hstep, hpf.2.2.2.1, hts]

theorem dupCycle_iterate (s : ManagerState) (h : SelfRetryReady s) (k : Nat) :
    SelfRetryReady (dupCycle^[k] s) ∧ (dupCycle^[k] s).mSeed = s.mSeed ∧
    (dupCycle^[k] s).mDadCounter = (s.mDadCounter + k) % kUint8Mod := by
  induction k with
  | zero =>
      refine ⟨h, rfl, ?_⟩
      have hc := h.2.2.2.2.2
      simp only [kUint8Mod] at hc ⊢
      simp only [Function.iterate_zero, id]
      omega
  | succ n ih =>
      rw [Function.iterate_succ_apply']
      obtain ⟨hr, hseed, hcount⟩ := ih
      have hs := dupCycle_spec _ hr
      refine ⟨hs.1, hs.2.1.trans hseed, ?_⟩
      rw [hs.2.2.1, hcount]
      simp only [kUint8Mod]
      omega

theorem dupCycle_iterate_addr (s : ManagerState) (h : SelfRetryReady s) (k : Nat)
    (hk : 1 ≤ k) :
    (dupCycle^[k] s).mDomainUnicastAddress =
      GenerateDomainUnicastAddressIid s.mSeed ((s.mDadCounter + k) % kUint8Mod) := by
  cases k with
  | zero => omega
  | succ n =>
      rw [Function.iterate_succ_apply']
      obtain ⟨hr, hseed, hcount⟩ := dupCycle_iterate s h n
      have hs := dupCycle_spec _ hr
      rw [hs.2.2.2.1, hseed, hcount]
      have : ((s.mDadCounter + n) % kUint8Mod + 1) % kUint8Mod =
          (s.mDadCounter + (n + 1)) % kUint8Mod := by
        simp only [kUint8Mod]
        omega
      rw [this]

/-- C1: for every reachable state of the DuaManager the shared timer is
scheduled exactly when the aggregate packed delay word is nonzero, after
every transition of the event loop (state-machine transitions, scheduler
actions and external delay mutations alike); and the packed word is zero
exactly when all three delay fields are zero. -/
theorem timer_armed_iff_delay_nonzero :
    (∀ s : ManagerState, Reachable s → (s.mTimerScheduled = true ↔ s.mDelay.mValue ≠ 0)) ∧
    (∀ d : DelayFields,
      d.mValue = 0 ↔
        d.mReregistrationDelay = 0 ∧ d.mCheckDelay = 0 ∧ d.mRegistrationDelay = 0) := by
  constructor
  · intro s hs
    have h := timerInv_reachable hs
    unfold TimerInv at h
    rw [h]
    simp [bne_iff_ne]
  · intro d
    unfold DelayFields.mValue
    omega

/-- Witness for C1 at the freshly constructed manager. -/
theorem timer_armed_iff_delay_nonzero_witness :
    (initState 0).mTimerScheduled = true ↔ (initState 0).mDelay.mValue ≠ 0 :=
  timer_armed_iff_delay_nonzero.1 (initState 0) (Reachable.init 0)

/-- C2: in every reachable state at most one self-flow request and at most
one proxy-flow request are outstanding, every outstanding proxy request is
for the single child recorded in mChildIndexDuaRegistering, and hence at
most one child index is in flight system-wide. -/
theorem at_most_one_outstanding_per_flow :
    ∀ s : ManagerState, Reachable s →
      countFlow Flow.selfFlow s.mOutstanding ≤ 1 ∧
      (∀ i, countFlow (Flow.proxyFlow i) s.mOutstanding ≤ 1) ∧
      (∀ i, Flow.proxyFlow i ∈ s.mOutstanding → s.mChildIndexDuaRegistering = some i) ∧
      (∀ i j, Flow.proxyFlow i ∈ s.mOutstanding → Flow.proxyFlow j ∈ s.mOutstanding →
        i = j) := by
  intro s hs
  obtain ⟨h1, h2⟩ := outInv_reachable hs
  have hmem : ∀ i, Flow.proxyFlow i ∈ s.mOutstanding →
      s.mChildIndexDuaRegistering = some i := by
    intro i hi
    by_contra hne
    have hc := h2 i
    rw [if_neg hne] at hc
    have := countFlow_pos_of_mem hi
    omega
  refine ⟨?_, ?_, hmem, ?_⟩
  · rw [h1]
    split <;> omega
  · intro i
    rw [h2 i]
    split <;> omega
  · intro i j hi hj
    have := (hmem i hi).symm.trans (hmem j hj)
    simpa using this

/-- Witness for C2 at the freshly constructed manager. -/
theorem at_most_one_outstanding_per_flow_witness :
    countFlow Flow.selfFlow (initState 0).mOutstanding ≤ 1 ∧
    countFlow (Flow.proxyFlow 3) (initState 0).mOutstanding ≤ 1 := by
  have h := at_most_one_outstanding_per_flow (initState 0) (Reachable.init 0)
  exact ⟨h.1, h.2.1 3⟩

/-- C3: along any run of duplicate-address responses delivered while
registering (each round re-submits and is answered with a duplicate), the
DadCounter increases strictly, the machine returns to kToRegister, the
regenerated identifier at each round is the perturbation of the seed by the
new counter, and within the counter's range it differs from every
previously rejected identifier. -/
theorem dad_counter_strictly_increases_iid_fresh :
    ∀ (s : ManagerState) (n : Nat), SelfRetryReady s → s.mDadCounter + n ≤ 255 →
      (∀ k, k ≤ n → (dupCycle^[k] s).mDadCounter = s.mDadCounter + k) ∧
      (∀ k, k ≤ n → (dupCycle^[k] s).mDuaState = DuaState.kToRegister) ∧
      (∀ k, 1 ≤ k → k ≤ n →
        (dupCycle^[k] s).mDomainUnicastAddress =
          GenerateDomainUnicastAddressIid s.mSeed (s.mDadCounter + k)) ∧
      (∀ j k, j < k → k ≤ n →
        GenerateDomainUnicastAddressIid s.mSeed (s.mDadCounter + k) ≠
          GenerateDomainUnicastAddressIid s.mSeed (s.mDadCounter + j)) := by
  intro s n hr hn
  refine ⟨?_, ?_, ?_, ?_⟩
  · intro k hk
    rw [(dupCycle_iterate s hr k).2.2]
    simp only [kUint8Mod]
    omega
  · intro k hk
    exact (dupCycle_iterate s hr k).1.1
  · intro k hk1 hkn
    rw [dupCycle_iterate_addr s hr k hk1]
    have hlt : (s.mDadCounter + k) % kUint8Mod = s.mDadCounter + k := by
      simp only [kUint8Mod]
      omega
    rw [hlt]
  · intro j k hjk hkn
    unfold GenerateDomainUnicastAddressIid
    simp only [kUint64Mod]
    omega

/-- Witness for C3: two duplicate rounds from a ready state. -/
theorem dad_counter_strictly_increases_iid_fresh_witness :
    (dupCycle^[2] readyState).mDadCounter = readyState.mDadCounter + 2 ∧
    (dupCycle^[2] readyState).mDuaState = DuaState.kToRegister ∧
    GenerateDomainUnicastAddressIid readyState.mSeed (readyState.mDadCounter + 2) ≠
      GenerateDomainUnicastAddressIid readyState.mSeed (readyState.mDadCounter + 1) := by
  have h := dad_counter_strictly_increases_iid_fresh readyState 2
    ⟨rfl, rfl, rfl, rfl, rfl, by decide⟩ (by decide)
  exact ⟨h.1 2 le_rfl, h.2.1 2 le_rfl, h.2.2.2 1 2 (by omega) le_rfl⟩

/-- C4: SetFixedDuaInterfaceIdentifier returns OT_ERROR_INVALID_ARGS for a
reserved identifier, synchronously and with the whole state unchanged, and
OT_ERROR_NONE for a non-reserved identifier, whose only effect is storing
the fixed identifier. -/
theorem set_fixed_iid_rejects_reserved :
    ∀ (s : ManagerState) (aIid : Nat),
      (IsReservedIid aIid = true →
        SetFixedDuaInterfaceIdentifier s aIid = (OtError.kErrorInvalidArgs, s)) ∧
      (IsReservedIid aIid = false →
        SetFixedDuaInterfaceIdentifier s aIid =
          (OtError.kErrorNone,
            { s with mFixedDuaInterfaceIdentifier := aIid % kUint64Mod })) := by
  intro s aIid
  constructor <;> intro hr <;> simp [SetFixedDuaInterfaceIdentifier, hr]

/-- Witness for C4: the all-zero identifier is reserved and rejected with no
state change; identifier 42 is accepted. -/
theorem set_fixed_iid_rejects_reserved_witness :
    IsReservedIid 0 = true ∧
    SetFixedDuaInterfaceIdentifier (initState 0) 0 = (OtError.kErrorInvalidArgs, initState 0) ∧
    IsReservedIid 42 = false ∧
    (SetFixedDuaInterfaceIdentifier (initState 0) 42).1 = OtError.kErrorNone := by
  refine ⟨by decide, (set_fixed_iid_rejects_reserved (initState 0) 0).1 (by decide),
    by decide, ?_⟩
  rw [(set_fixed_iid_rejects_reserved (initState 0) 42).2 (by decide)]

/-- C5: on a success response the in-flight child's bit moves from the
Pending mask to the Registered mask, the in-flight index is cleared and the
slot becomes the last-serviced index of the round-robin scan; in scenario C
(Pending bits in slots 1, 3 and 4, all-success responses) the scheduler
serves slot 1, then 3, then 4, ending with Registered mask covering slots
1, 3 and 4 and the Pending mask empty. -/
theorem proxy_scheduler_round_robin :
    (∀ (s : ManagerState) (i : Nat),
      s.mChildIndexDuaRegistering = some i → s.mRegisterCurrentChildIndex = false →
        (HandleProxyDuaResponse s RspStatus.success).mChildDuaMask =
          clearBit s.mChildDuaMask i ∧
        (HandleProxyDuaResponse s RspStatus.success).mChildDuaRegisteredMask =
          setBit s.mChildDuaRegisteredMask i ∧
        (HandleProxyDuaResponse s RspStatus.success).mChildIndexDuaRegistering = none ∧
        (HandleProxyDuaResponse s RspStatus.success).mLastServicedIndex = i) ∧
    scenarioC.mServiceLog = [1, 3, 4] ∧
    scenarioC.mChildDuaRegisteredMask = 2 ^ 1 + 2 ^ 3 + 2 ^ 4 ∧
    scenarioC.mChildDuaMask = 0 ∧
    scenarioC.mChildIndexDuaRegistering = none := by
  refine ⟨?_, by decide, by decide, by decide, by decide⟩
  intro s i hc hf
  unfold HandleProxyDuaResponse
  rw [hc]
  dsimp only
  rw [if_neg (by simp [hf])]
  exact ⟨rfl, rfl, rfl, rfl⟩

/-- Witness for C5: the success-response effect at a state with child 2 in
flight. -/
theorem proxy_scheduler_round_robin_witness :
    (HandleProxyDuaResponse proxyInFlightState RspStatus.success).mChildDuaMask =
      clearBit proxyInFlightState.mChildDuaMask 2 ∧
    (HandleProxyDuaResponse proxyInFlightState RspStatus.success).mChildDuaRegisteredMask =
      setBit proxyInFlightState.mChildDuaRegisteredMask 2 ∧
    (HandleProxyDuaResponse proxyInFlightState RspStatus.success).mChildIndexDuaRegistering =
      none := by
  have h := proxy_scheduler_round_robin.1 proxyInFlightState 2 (by decide) (by decide)
  exact ⟨h.1, h.2.1, h.2.2.1⟩

/-- C6: a self-flow response delivered with no self request outstanding, and
a proxy-flow response delivered with no child in flight, leave the whole
DuaManager state unchanged, for every response disposition. -/
theorem stale_response_is_noop :
    ∀ (s : ManagerState) (r : RspStatus),
      (s.mIsDuaPending = false → HandleDuaResponse s r = s) ∧
      (s.mChildIndexDuaRegistering = none → HandleProxyDuaResponse s r = s) := by
  intro s r
  constructor
  · intro hp
    unfold HandleDuaResponse
    rw [if_pos hp]
  · intro hc
    unfold HandleProxyDuaResponse
    rw [hc]

/-- Witness for C6: a duplicate success delivered to the idle manager. -/
theorem stale_response_is_noop_witness :
    HandleDuaResponse (initState 0) RspStatus.success = initState 0 ∧
    HandleProxyDuaResponse (initState 0) RspStatus.success = initState 0 :=
  ⟨(stale_response_is_noop (initState 0) RspStatus.success).1 rfl,
   (stale_response_is_noop (initState 0) RspStatus.success).2 rfl⟩

/-- C7: withdrawing the domain prefix moves every state to kNotExist and
removes the address from the interface, while the persisted settings, the
DadCounter and the fixed identifier are untouched, so a later Restore still
yields the persisted identifier and counter. -/
theorem prefix_withdraw_resets_preserves_persist :
    ∀ s : ManagerState,
      (step s (Event.domainPrefixUpdate none)).mDuaState = DuaState.kNotExist ∧
      (step s (Event.domainPrefixUpdate none)).mAddressAdded = false ∧
      (step s (Event.domainPrefixUpdate none)).mSettings = s.mSettings ∧
      (step s (Event.domainPrefixUpdate none)).mDadCounter = s.mDadCounter ∧
      (step s (Event.domainPrefixUpdate none)).mFixedDuaInterfaceIdentifier =
        s.mFixedDuaInterfaceIdentifier ∧
      (Restore (step s (Event.domainPrefixUpdate none))).mDomainUnicastAddress =
        (Restore s).mDomainUnicastAddress ∧
      (Restore (step s (Event.domainPrefixUpdate none))).mDadCounter =
        (Restore s).mDadCounter := by
  intro s
  refine ⟨rfl, rfl, rfl, rfl, rfl, ?_, ?_⟩
  · show (Restore (HandleDomainPrefixUpdate s none)).mDomainUnicastAddress =
      (Restore s).mDomainUnicastAddress
    unfold HandleDomainPrefixUpdate Restore
    dsimp only
    rcases s.mSettings with _ | ⟨iid, c⟩ <;> rfl
  · show (Restore (HandleDomainPrefixUpdate s none)).mDadCounter = (Restore s).mDadCounter
    unfold HandleDomainPrefixUpdate Restore
    dsimp only
    rcases s.mSettings with _ | ⟨iid, c⟩ <;> rfl

/-- C8: Store followed by Restore with no intervening mutation restores the
same identifier and DadCounter, for every in-range pair. -/
theorem store_restore_roundtrip :
    ∀ s : ManagerState, s.mDomainUnicastAddress < kUint64Mod → s.mDadCounter < kUint8Mod →
      (Restore (Store s)).mDomainUnicastAddress = s.mDomainUnicastAddress ∧
      (Restore (Store s)).mDadCounter = s.mDadCounter := by
  intro s hiid hc
  constructor
  · show s.mDomainUnicastAddress % kUint64Mod = s.mDomainUnicastAddress
    exact Nat.mod_eq_of_lt hiid
  · show s.mDadCounter % kUint8Mod = s.mDadCounter
    exact Nat.mod_eq_of_lt hc

/-- Witness for C8 at a state with identifier 9 and counter 5. -/
theorem store_restore_roundtrip_witness :
    (Restore (Store { initState 0 with mDomainUnicastAddress := 9, mDadCounter := 5
      })).mDomainUnicastAddress = 9 ∧
    (Restore (Store { initState 0 with mDomainUnicastAddress := 9, mDadCounter := 5
      })).mDadCounter = 5 := by
  have h := store_restore_roundtrip
    { initState 0 with mDomainUnicastAddress := 9, mDadCounter := 5 }
    (by decide) (by decide)
  exact ⟨h.1, h.2⟩

/-- C9: the DadCounter is a uint8, so 256 consecutive duplicate-address
rounds return it to its starting value and the perturbed identifier
sequence repeats; consequently the number of distinct generated identifiers
per seed is at most 256. -/
theorem dad_counter_wraps_uint8 :
    (∀ s : ManagerState, SelfRetryReady s →
      (dupCycle^[kUint8Mod] s).mDadCounter = s.mDadCounter ∧
      (dupCycle^[kUint8Mod] s).mDomainUnicastAddress =
        GenerateDomainUnicastAddressIid s.mSeed s.mDadCounter ∧
      (step s Event.registrationTask).mDomainUnicastAddress =
        GenerateDomainUnicastAddressIid s.mSeed s.mDadCounter) ∧
    (∀ seed : Nat,
      ((Finset.range kUint8Mod).image
        (fun c => GenerateDomainUnicastAddressIid seed c)).card ≤ kUint8Mod) := by
  constructor
  · intro s hr
    have hc := hr.2.2.2.2.2
    refine ⟨?_, ?_, ?_⟩
    · rw [(dupCycle_iterate s hr kUint8Mod).2.2]
      simp only [kUint8Mod] at hc ⊢
      omega
    · rw [dupCycle_iterate_addr s hr kUint8Mod (by simp [kUint8Mod])]
      have hwrap : (s.mDadCounter + kUint8Mod) % kUint8Mod = s.mDadCounter := by
        simp only [kUint8Mod] at hc ⊢
        omega
      rw [hwrap]
    · exact (dupCycle_spec s hr).2.2.2.2
  · intro seed
    exact le_trans Finset.card_image_le (le_of_eq (Finset.card_range _))

/-- Witness for C9: the wrap at the ready state and the cardinality bound at
seed 0. -/
theorem dad_counter_wraps_uint8_witness :
    (dupCycle^[kUint8Mod] readyState).mDadCounter = readyState.mDadCounter ∧
    ((Finset.range kUint8Mod).image
      (fun c => GenerateDomainUnicastAddressIid 0 c)).card ≤ kUint8Mod :=
  ⟨(dad_counter_wraps_uint8.1 readyState ⟨rfl, rfl, rfl, rfl, rfl, by decide⟩).1,
   dad_counter_wraps_uint8.2 0⟩

/-- C10: GetDomainUnicastAddress is total over every DuaState: it returns the
stored address field unconditionally, with no error or optional result, and
its value does not depend on the DuaState — in particular it answers the
same even in kNotExist. -/
theorem get_dua_total_over_states :
    ∀ (s : ManagerState) (st : DuaState),
      GetDomainUnicastAddress s = s.mDomainUnicastAddress ∧
      GetDomainUnicastAddress { s with mDuaState := st } = s.mDomainUnicastAddress ∧
      GetDomainUnicastAddress { s with mDuaState := DuaState.kNotExist } =
        GetDomainUnicastAddress { s with mDuaState := DuaState.kRegistered } :=
  fun s st => ⟨rfl, rfl, rfl⟩

end Dua
